import Mathlib

/-
Verification of the resilient Zendesk API dispatch layer: the wrapper class
that adds bounded concurrency, retry with exponential backoff, and a
normalized error contract around a callback-style API client.

The definitions below are a shallow embedding of the wrapper module
(constants, _calcRetryAfter, the retry loop of _createPromiseRequest,
_buildError, _buildAuthRequest, the attachment request of _createAttachment,
the constructor, and the concurrency-limited queue discipline).
-/

set_option maxHeartbeats 1000000

namespace Docpub

/-- Maximum number of retries per unit of work (constant MAX_RETRIES). -/
def MAX_RETRIES : Nat := 6

/-- Base backoff delay in milliseconds (constant RETRY_AFTER_DEFAULT). -/
def RETRY_AFTER_DEFAULT : Nat := 500

/-- Backoff cap in milliseconds (constant RETRY_AFTER_MAX). -/
def RETRY_AFTER_MAX : Nat := 8000

/-- Maximum number of concurrently running units (constant MAX_CONCURRENT). -/
def MAX_CONCURRENT : Nat := 29

/-- Embedding of _calcRetryAfter: multiplier = max(2 ^ retryNumber, 1),
result = min(RETRY_AFTER_DEFAULT * multiplier, RETRY_AFTER_MAX). -/
def _calcRetryAfter (retryNumber : Nat) : Nat :=
  let multiplier := max (2 ^ retryNumber) 1
  min (RETRY_AFTER_DEFAULT * multiplier) RETRY_AFTER_MAX

/-- Normalized failure descriptor: the error object seen by the retry loop.
statusCode is absent on transport-level failures; retryAfter is the
retry-after hint in seconds (absent when no hint was given; header values
are strings in the source, so a present value is truthy); cause is an
opaque identity for the raw error object, letting distinct attempts carry
distinct causes. -/
structure ErrDesc where
  statusCode : Option Nat
  retryAfter : Option Nat
  cause : Nat
  deriving Repr, DecidableEq

/-- Embedding of the retry guard of _createPromiseRequest, line 88:
err.retryAfter || err.statusCode >= 500. A missing statusCode compares
false in the source (NaN comparison), hence the none branch. -/
def isRetryable (err : ErrDesc) : Bool :=
  err.retryAfter.isSome ||
    (match err.statusCode with
     | some c => 500 ≤ c
     | none => false)

/-- Embedding of the delay computation of _createPromiseRequest, lines 91-93:
an explicit hint (seconds) is converted to milliseconds and takes precedence;
otherwise the backoff is keyed on MAX_RETRIES - retries, where retries is the
remaining-retry counter before its decrement. -/
def computeDelay (err : ErrDesc) (retries : Nat) : Nat :=
  match err.retryAfter with
  | some s => s * 1000
  | none => _calcRetryAfter (MAX_RETRIES - retries)

/-- Outcome of one physical transport attempt, as delivered to the callback
pushed by _createPromiseRequest: either a result or an error descriptor. -/
inductive Outcome where
  | success (result : Nat)
  | failure (err : ErrDesc)
  deriving Repr, DecidableEq

/-- Settlement of the future returned by _createPromiseRequest. -/
inductive DispatchResult where
  | resolve (result : Nat)
  | reject (err : ErrDesc)
  deriving Repr, DecidableEq

/-- Embedding of the retry loop of _createPromiseRequest. The oracle gives
the outcome of the physical call on each attempt index (attempt 0 is the
initial call). Returns the settlement of the future together with the list
of delays passed to setTimeout for the retries actually performed, in order.
Mirrors the callback: success resolves immediately; a retryable failure
with retries remaining computes the delay from the counter before its
decrement and re-runs the same call; otherwise the future rejects with the
observed error object. -/
def runAttempts (oracle : Nat → Outcome) (attempt retries : Nat) :
    DispatchResult × List Nat :=
  match oracle attempt with
  | Outcome.success r => (DispatchResult.resolve r, [])
  | Outcome.failure e =>
    if isRetryable e then
      match retries with
      | 0 => (DispatchResult.reject e, [])
      | r + 1 =>
        let d := computeDelay e (r + 1)
        let rest := runAttempts oracle (attempt + 1) r
        (rest.1, d :: rest.2)
    else (DispatchResult.reject e, [])

/-- Headers of a transport response; retryAfter models the retry-after
header value in seconds (a nonempty header string is truthy). -/
structure Headers where
  retryAfter : Option Nat
  deriving Repr, DecidableEq

/-- Raw transport response as inspected by _buildError: a status code and
an optional headers object. -/
structure Response where
  statusCode : Nat
  headers : Option Headers
  deriving Repr, DecidableEq

/-- True when the response carries a retry-after header. -/
def hasRetryHeader (r : Response) : Bool :=
  match r.headers with
  | some hs => hs.retryAfter.isSome
  | none => false

/-- Embedding of _buildError. The response argument is optional because the
transport passes no response object on connection-level failures; the source
dereferences response unconditionally (response.statusCode when error is
absent, response.headers always), so a missing response makes the function
throw a TypeError, modelled as Except.error. When no error exists and the
status is at least 400 a descriptor carrying that statusCode is synthesized
(cause 0 models the fresh object literal); when a retry-after header exists
its raw value (seconds) is attached to the existing or a fresh descriptor. -/
def _buildError (error : Option ErrDesc) (response : Option Response) :
    Except Unit (Option ErrDesc) :=
  match response with
  | none => Except.error ()
  | some r =>
    let error1 : Option ErrDesc :=
      match error with
      | none =>
        if 400 ≤ r.statusCode then
          some { statusCode := some r.statusCode, retryAfter := none, cause := 0 }
        else none
      | some e => some e
    match r.headers with
    | some hs =>
      match hs.retryAfter with
      | some v =>
        let base := error1.getD { statusCode := none, retryAfter := none, cause := 0 }
        Except.ok (some { base with retryAfter := some v })
      | none => Except.ok error1
    | none => Except.ok error1

/-- Authentication block of a built request: either a bearer token (OAuth)
or basic auth with user and pass. -/
inductive AuthBlock where
  | bearer (token : String)
  | basic (user pass : String)
  deriving Repr, DecidableEq

/-- Client options as read by _buildAuthRequest through options.get.
password is optional; an empty string is falsy in the source, so truthiness
is modelled separately. oauth models the truthiness of the oauth option. -/
structure ClientOptions where
  remoteUri : String
  username : String
  password : Option String
  token : String
  oauth : Bool
  deriving Repr, DecidableEq

/-- Truthiness of an optional string in the source: absent and empty are
falsy. -/
def jsTruthy : Option String → Bool
  | none => false
  | some s => s ≠ ""

/-- Request parameters produced by _buildAuthRequest: absolute url and an
auth block. -/
structure RequestParams where
  url : String
  auth : AuthBlock
  deriving Repr, DecidableEq

/-- Embedding of _buildAuthRequest: url is base plus endpoint; the auth
block follows the precedence of lines 145-156: oauth bearer first, then
basic auth with the configured password, then user suffixed with /token
plus the API token. -/
def _buildAuthRequest (opts : ClientOptions) (endpoint : String) : RequestParams :=
  { url := opts.remoteUri ++ endpoint,
    auth :=
      if opts.oauth then AuthBlock.bearer opts.token
      else if jsTruthy opts.password then
        AuthBlock.basic opts.username (opts.password.getD "")
      else
        AuthBlock.basic (opts.username ++ "/token") opts.token }

/-- Endpoint string built by _createAttachment, line 119. -/
def attachmentEndpoint (articleId : Nat) : String :=
  "/articles/" ++ toString articleId ++ "/attachments.json"

/-- Multipart form data of the attachment request: the inline field is a
string in the source because the form encoder rejects booleans. -/
structure FormData where
  inline : String
  file : String
  deriving Repr, DecidableEq

/-- Full attachment request built by _createAttachment, lines 119-125. -/
structure AttachmentRequest where
  url : String
  auth : AuthBlock
  formData : FormData
  deriving Repr, DecidableEq

/-- Embedding of the request-building half of _createAttachment: auth params
from _buildAuthRequest on the attachments endpoint, plus form data with
inline fixed to the string true and the streamed file. -/
def _createAttachmentRequest (opts : ClientOptions) (articleId : Nat)
    (resourcePath : String) : AttachmentRequest :=
  let params := _buildAuthRequest opts (attachmentEndpoint articleId)
  { url := params.url, auth := params.auth,
    formData := { inline := "true", file := resourcePath } }

/-- Modelled from the spec: the constants module (file ./constants, not
under src) names the JSON field of the attachment record; the spec says the
body is shaped with the key article_attachment. -/
def ARTICLE_ATTACHMENT : String := "article_attachment"

/-- Embedding of the completion line of _createAttachment, line 128: an
empty body yields null, otherwise the parsed JSON object is indexed by the
attachment field. The parsed body is modelled as an association list. -/
def parseAttachmentResult {α : Type} (body : Option (List (String × α))) : Option α :=
  match body with
  | none => none
  | some obj => (obj.find? (fun kv => kv.1 = ARTICLE_ATTACHMENT)).map (fun kv => kv.2)

/-- Resource names wrapped by the constructor, lines 37-44. -/
def ENDPOINTS : List String :=
  ["articles", "articleattachments", "sections", "accesspolicies", "categories", "translations"]

/-- Model of the client passed to the constructor: the set of endpoint
names the client object exposes as its own properties. -/
structure ClientModel where
  ownProps : List String
  deriving Repr, DecidableEq

/-- Constructed wrapper surface: the resource names for which a wrapped
object was assigned, and whether the hand-authored attachments create
operation was installed. -/
structure Wrapper where
  surfaces : List String
  attachmentsCreate : Bool
  deriving Repr, DecidableEq

/-- Failure modes of the constructor: the explicit throw when no client is
supplied, and the TypeError raised when assigning create onto the missing
articleattachments surface. -/
inductive ConstructErr where
  | noClient
  | typeError
  deriving Repr, DecidableEq

/-- Embedding of the constructor, lines 30-54: throws when no client is
supplied; wraps each endpoint the client owns (hasOwnProperty check of
_wrapPrototypeMethods); then assigns the create operation onto the
articleattachments surface, which throws a TypeError when that surface was
never created. -/
def constructWrapper (client : Option ClientModel) : Except ConstructErr Wrapper :=
  match client with
  | none => Except.error ConstructErr.noClient
  | some c =>
    let surfaces := ENDPOINTS.filter (fun e => c.ownProps.contains e)
    if surfaces.contains "articleattachments" then
      Except.ok { surfaces := surfaces, attachmentsCreate := true }
    else Except.error ConstructErr.typeError

/-
Model of the concurrency-limited queue and the slot discipline of the
dispatcher. The queue itself is the promise-queue dependency, so its
admission discipline is modelled from the spec; the three completion steps
embed the callback branching of _createPromiseRequest, in which a retry is
rescheduled by setTimeout inside the already-admitted slot and therefore
stays in the running region, never re-entering the waiting region.
-/

/-- A unit of work as submitted: an identifier and the oracle giving the
outcome of each physical attempt. -/
structure WorkUnit where
  uid : Nat
  oracle : Nat → Outcome

/-- A unit occupying a queue slot: the unit, the index of its next attempt,
and its remaining retries. -/
structure RunningUnit where
  unit : WorkUnit
  attempt : Nat
  retries : Nat

/-- State of the whole dispatcher: units waiting for admission in FIFO
order, units occupying slots, and settled futures. -/
structure QState where
  waiting : List WorkUnit
  running : List RunningUnit
  settled : List (Nat × DispatchResult)

/-- Admission initializes the per-unit retry counter to MAX_RETRIES, as in
_createPromiseRequest line 79. -/
def enterUnit (u : WorkUnit) : RunningUnit :=
  { unit := u, attempt := 0, retries := MAX_RETRIES }

/-- Modelled from the spec: the admission step of the concurrency-limited
queue (the promise-queue dependency is not under src) admits the first
waiting unit only while fewer than MAX_CONCURRENT units are running. The
complete, retry and fail steps embed the callback of _createPromiseRequest
lines 85-101: success settles the future; a retryable failure with retries
remaining re-runs the same call inside the already-admitted slot; any other
failure, or exhausted retries, rejects the future with the observed error. -/
inductive QStep : QState → QState → Prop
  | enter (u : WorkUnit) (ws : List WorkUnit) (s : QState)
      (hw : s.waiting = u :: ws)
      (hc : s.running.length < MAX_CONCURRENT) :
      QStep s { waiting := ws, running := s.running ++ [enterUnit u], settled := s.settled }
  | complete (pre post : List RunningUnit) (ru : RunningUnit) (s : QState) (r : Nat)
      (hr : s.running = pre ++ ru :: post)
      (hout : ru.unit.oracle ru.attempt = Outcome.success r) :
      QStep s { waiting := s.waiting, running := pre ++ post,
                settled := (ru.unit.uid, DispatchResult.resolve r) :: s.settled }
  | retry (pre post : List RunningUnit) (ru : RunningUnit) (s : QState) (e : ErrDesc)
      (hr : s.running = pre ++ ru :: post)
      (hout : ru.unit.oracle ru.attempt = Outcome.failure e)
      (hret : isRetryable e = true)
      (hrem : 0 < ru.retries) :
      QStep s { waiting := s.waiting,
                running := pre ++ { unit := ru.unit, attempt := ru.attempt + 1, retries := ru.retries - 1 } :: post,
                settled := s.settled }
  | fail (pre post : List RunningUnit) (ru : RunningUnit) (s : QState) (e : ErrDesc)
      (hr : s.running = pre ++ ru :: post)
      (hout : ru.unit.oracle ru.attempt = Outcome.failure e)
      (hterm : isRetryable e = false ∨ ru.retries = 0) :
      QStep s { waiting := s.waiting, running := pre ++ post,
                settled := (ru.unit.uid, DispatchResult.reject e) :: s.settled }

/-- Multiset of unit identifiers across the three regions of the state. -/
def QState.uids (s : QState) : Multiset Nat :=
  (↑(s.waiting.map WorkUnit.uid) : Multiset Nat) +
    (↑(s.running.map (fun ru => ru.unit.uid)) : Multiset Nat) +
    (↑(s.settled.map Prod.fst) : Multiset Nat)

/-- Termination measure: each waiting unit will cost one admission plus at
most MAX_RETRIES + 1 attempts; each running unit costs its remaining
retries plus the pending attempt. -/
def QState.qmeasure (s : QState) : Nat :=
  s.waiting.length * (MAX_RETRIES + 2) +
    (s.running.map (fun ru => ru.retries + 1)).sum

/-- One step never pushes the number of occupied slots above
MAX_CONCURRENT. -/
theorem QStep.running_le {s s' : QState} (h : QStep s s')
    (hb : s.running.length ≤ MAX_CONCURRENT) : s'.running.length ≤ MAX_CONCURRENT := by
  cases h with
  | enter u ws s hw hc =>
    simp only [List.length_append, List.length_cons, List.length_nil]
    omega
  | complete pre post ru s r hr hout =>
    rw [hr] at hb
    simp only [List.length_append, List.length_cons] at hb ⊢
    omega
  | retry pre post ru s e hr hout hret hrem =>
    rw [hr] at hb
    simp only [List.length_append, List.length_cons] at hb ⊢
    omega
  | fail pre post ru s e hr hout hterm =>
    rw [hr] at hb
    simp only [List.length_append, List.length_cons] at hb ⊢
    omega

/-- Every state reachable from a state with no occupied slots keeps at most
MAX_CONCURRENT occupied slots. -/
theorem qsteps_running_le {s0 s : QState} (h : Relation.ReflTransGen QStep s0 s)
    (h0 : s0.running = []) : s.running.length ≤ MAX_CONCURRENT := by
  induction h with
  | refl => simp [h0]
  | tail h1 h2 ih => exact h2.running_le ih

/-- The waiting region is only ever consumed: in particular a retry never
re-enters the admission queue. -/
theorem QStep.waiting_suffix {s s' : QState} (h : QStep s s') : s'.waiting <:+ s.waiting := by
  cases h with
  | enter u ws s hw hc => rw [hw]; exact List.suffix_cons u ws
  | complete pre post ru s r hr hout => exact List.suffix_refl _
  | retry pre post ru s e hr hout hret hrem => exact List.suffix_refl _
  | fail pre post ru s e hr hout hterm => exact List.suffix_refl _

/-- No unit is ever created, duplicated or lost by a step. -/
theorem QStep.uids_eq {s s' : QState} (h : QStep s s') : QState.uids s' = QState.uids s := by
  cases h with
  | enter u ws s hw hc =>
    simp only [QState.uids, hw, enterUnit, List.map_append, List.map_cons, List.map_nil,
      ← Multiset.coe_add, ← Multiset.cons_coe]
    simp only [← Multiset.singleton_add, Multiset.coe_nil]
    abel
  | complete pre post ru s r hr hout =>
    simp only [QState.uids, hr, List.map_append, List.map_cons, List.map_nil,
      ← Multiset.coe_add, ← Multiset.cons_coe]
    simp only [← Multiset.singleton_add, Multiset.coe_nil]
    abel
  | retry pre post ru s e hr hout hret hrem =>
    simp only [QState.uids, hr, List.map_append, List.map_cons, List.map_nil,
      ← Multiset.coe_add, ← Multiset.cons_coe]
  | fail pre post ru s e hr hout hterm =>
    simp only [QState.uids, hr, List.map_append, List.map_cons, List.map_nil,
      ← Multiset.coe_add, ← Multiset.cons_coe]
    simp only [← Multiset.singleton_add, Multiset.coe_nil]
    abel

/-- Every step strictly decreases the measure, so no run of the system is
infinite: with the progress property this means every submitted unit is
eventually settled. -/
theorem QStep.qmeasure_lt {s s' : QState} (h : QStep s s') :
    QState.qmeasure s' < QState.qmeasure s := by
  cases h with
  | enter u ws s hw hc =>
    simp only [QState.qmeasure, hw, enterUnit, List.map_append, List.map_cons,
      List.map_nil, List.sum_append, List.sum_cons, List.sum_nil, List.length_cons,
      MAX_RETRIES]
    omega
  | complete pre post ru s r hr hout =>
    simp only [QState.qmeasure, hr, List.map_append, List.map_cons, List.sum_append,
      List.sum_cons]
    omega
  | retry pre post ru s e hr hout hret hrem =>
    simp only [QState.qmeasure, hr, List.map_append, List.map_cons, List.sum_append,
      List.sum_cons]
    omega
  | fail pre post ru s e hr hout hterm =>
    simp only [QState.qmeasure, hr, List.map_append, List.map_cons, List.sum_append,
      List.sum_cons]
    omega

/-- A state with any waiting or running unit can always step: the system is
stuck only once every unit has settled. -/
theorem qstep_progress (s : QState) (h : s.waiting ≠ [] ∨ s.running ≠ []) :
    ∃ s', QStep s s' := by
  cases hr : s.running with
  | cons ru rest =>
    cases hout : ru.unit.oracle ru.attempt with
    | success r =>
      exact ⟨_, QStep.complete [] rest ru s r (by simpa using hr) hout⟩
    | failure e =>
      by_cases hret : isRetryable e = true
      · cases hrem : ru.retries with
        | zero =>
          exact ⟨_, QStep.fail [] rest ru s e (by simpa using hr) hout (Or.inr hrem)⟩
        | succ n =>
          exact ⟨_, QStep.retry [] rest ru s e (by simpa using hr) hout hret (by omega)⟩
      · exact ⟨_, QStep.fail [] rest ru s e (by simpa using hr) hout
          (Or.inl (by simpa using hret))⟩
  | nil =>
    cases hw : s.waiting with
    | nil =>
      rw [hw, hr] at h
      simp at h
    | cons u ws =>
      exact ⟨_, QStep.enter u ws s hw (by rw [hr]; simp [MAX_CONCURRENT])⟩

/-
Theorems.
-/

/-- Helper: when every attempt fails with a 503 and no retry hint, the
retry loop started with a given budget performs exactly that many retries,
each delayed by the backoff keyed on attempts consumed so far, and rejects
with the error object of the final attempt. -/
theorem runAttempts_allFail503 (e : Nat → ErrDesc)
    (h503 : ∀ k, (e k).statusCode = some 503)
    (hnoh : ∀ k, (e k).retryAfter = none) :
    ∀ retries attempt,
      runAttempts (fun k => Outcome.failure (e k)) attempt retries =
        (DispatchResult.reject (e (attempt + retries)),
          (List.range retries).map
            (fun j => _calcRetryAfter (MAX_RETRIES - (retries - j)))) := by
  have hret : ∀ k, isRetryable (e k) = true := fun k => by
    simp [isRetryable, h503 k, hnoh k]
  have hdel : ∀ k r, computeDelay (e k) r = _calcRetryAfter (MAX_RETRIES - r) :=
    fun k r => by simp [computeDelay, hnoh k]
  intro retries
  induction retries with
  | zero =>
    intro attempt
    simp [runAttempts, hret]
  | succ r ih =>
    intro attempt
    rw [runAttempts]
    simp only [hret, if_true, ih (attempt + 1), hdel]
    have h1 : attempt + 1 + r = attempt + (r + 1) := by omega
    have h2 : _calcRetryAfter (MAX_RETRIES - (r + 1)) ::
        List.map (fun j => _calcRetryAfter (MAX_RETRIES - (r - j))) (List.range r) =
        List.map (fun j => _calcRetryAfter (MAX_RETRIES - (r + 1 - j))) (List.range (r + 1)) := by
      rw [List.range_succ_eq_map, List.map_cons, List.map_map]
      refine congrArg₂ List.cons ?_ ?_
      · norm_num
      · refine List.map_congr_left fun j _ => ?_
        simp only [Function.comp_apply]
        congr 1
        omega
    rw [h1, h2]

/-- C1: a unit of work that fails with statusCode 503 and no retry hint on
every attempt is retried MAX_RETRIES = 6 times, with the backoff keyed on
MAX_RETRIES - retriesRemaining (delays 500, 1000, 2000, 4000, 8000, 8000
milliseconds), and then the future rejects with the last observed failure
cause: the error object delivered on the seventh and final attempt, not a
synthetic exhaustion error. -/
theorem C1_dispatch_503_exhausts_with_last_cause (e : Nat → ErrDesc)
    (h503 : ∀ k, (e k).statusCode = some 503)
    (hnoh : ∀ k, (e k).retryAfter = none) :
    runAttempts (fun k => Outcome.failure (e k)) 0 MAX_RETRIES =
      (DispatchResult.reject (e MAX_RETRIES),
        [_calcRetryAfter 0, _calcRetryAfter 1, _calcRetryAfter 2,
          _calcRetryAfter 3, _calcRetryAfter 4, _calcRetryAfter 5]) ∧
    [_calcRetryAfter 0, _calcRetryAfter 1, _calcRetryAfter 2,
      _calcRetryAfter 3, _calcRetryAfter 4, _calcRetryAfter 5] =
      [500, 1000, 2000, 4000, 8000, 8000] := by
  constructor
  · rw [runAttempts_allFail503 e h503 hnoh MAX_RETRIES 0]
    have h1 : (0 : Nat) + MAX_RETRIES = MAX_RETRIES := by omega
    rw [h1]
    refine congrArg₂ Prod.mk rfl ?_
    decide
  · decide

/-- Witness for C1 at a concrete family of error objects whose causes
record the attempt index. -/
theorem C1_witness :
    runAttempts
        (fun k => Outcome.failure { statusCode := some 503, retryAfter := none, cause := k })
        0 MAX_RETRIES =
      (DispatchResult.reject
          { statusCode := some 503, retryAfter := none, cause := MAX_RETRIES },
        [_calcRetryAfter 0, _calcRetryAfter 1, _calcRetryAfter 2,
          _calcRetryAfter 3, _calcRetryAfter 4, _calcRetryAfter 5]) ∧
    [_calcRetryAfter 0, _calcRetryAfter 1, _calcRetryAfter 2,
      _calcRetryAfter 3, _calcRetryAfter 4, _calcRetryAfter 5] =
      [500, 1000, 2000, 4000, 8000, 8000] :=
  C1_dispatch_503_exhausts_with_last_cause
    (fun k => { statusCode := some 503, retryAfter := none, cause := k })
    (fun _ => rfl) (fun _ => rfl)

/-- C2: the backoff calculator is a pure function returning exactly
min(500 * 2 ^ attemptIndex, 8000) milliseconds on every attempt index in
[0,6), concretely 500, 1000, 2000, 4000, 8000 and 8000 (capped). -/
theorem C2_calcRetryAfter_spec :
    (∀ i, i < 6 → _calcRetryAfter i = min (500 * 2 ^ i) 8000) ∧
    _calcRetryAfter 0 = 500 ∧ _calcRetryAfter 1 = 1000 ∧
    _calcRetryAfter 2 = 2000 ∧ _calcRetryAfter 3 = 4000 ∧
    _calcRetryAfter 4 = 8000 ∧ _calcRetryAfter 5 = 8000 := by
  refine ⟨?_, by decide, by decide, by decide, by decide, by decide, by decide⟩
  intro i hi
  interval_cases i <;> decide

/-- Witness for C2 at attempt index 5, the capped case. -/
theorem C2_witness : _calcRetryAfter 5 = min (500 * 2 ^ 5) 8000 :=
  C2_calcRetryAfter_spec.1 5 (by decide)

/-- C3: an explicit retry hint takes precedence over the backoff
calculator: a hint of 2 seconds yields a delay of exactly 2000 milliseconds
at every remaining-retry count, a hint of s seconds yields s * 1000, and
the exponential backoff is used only when no hint is present; a concrete
run with a hinted 503 on the first two attempts uses delay 2000 twice. -/
theorem C3_hint_precedence :
    (∀ e retries, e.retryAfter = some 2 → computeDelay e retries = 2000) ∧
    (∀ e retries s, e.retryAfter = some s → computeDelay e retries = s * 1000) ∧
    (∀ e retries, e.retryAfter = none →
      computeDelay e retries = _calcRetryAfter (MAX_RETRIES - retries)) ∧
    runAttempts
        (fun k => if k < 2
          then Outcome.failure { statusCode := some 503, retryAfter := some 2, cause := k }
          else Outcome.success 7)
        0 MAX_RETRIES =
      (DispatchResult.resolve 7, [2000, 2000]) := by
  refine ⟨?_, ?_, ?_, by decide⟩
  · intro e retries h
    simp [computeDelay, h]
  · intro e retries s h
    simp [computeDelay, h]
  · intro e retries h
    simp [computeDelay, h]

/-- Witness for C3 at concrete error descriptors and retry counters. -/
theorem C3_witness :
    computeDelay { statusCode := some 429, retryAfter := some 2, cause := 0 } 4 = 2000 ∧
    computeDelay { statusCode := some 503, retryAfter := some 5, cause := 1 } 6 = 5 * 1000 ∧
    computeDelay { statusCode := some 503, retryAfter := none, cause := 2 } 6 =
      _calcRetryAfter (MAX_RETRIES - 6) :=
  ⟨C3_hint_precedence.1 _ 4 rfl,
    C3_hint_precedence.2.1 _ 6 5 rfl,
    C3_hint_precedence.2.2.1 _ 6 rfl⟩

/-- C4: a failure descriptor is retryable exactly when it carries a retry
hint or its statusCode is at least 500, and a unit failing with statusCode
404 and no hint is rejected immediately with that cause and an empty delay
trace (zero retries performed). -/
theorem C4_retryable_iff_404_immediate :
    (∀ e, isRetryable e = true ↔
      (e.retryAfter ≠ none ∨ ∃ c, e.statusCode = some c ∧ 500 ≤ c)) ∧
    (∀ oracle e, oracle 0 = Outcome.failure e → e.statusCode = some 404 →
      e.retryAfter = none →
      runAttempts oracle 0 MAX_RETRIES = (DispatchResult.reject e, [])) := by
  constructor
  · intro e
    cases hra : e.retryAfter <;> cases hsc : e.statusCode <;>
      simp [isRetryable, hra, hsc]
  · intro oracle e h0 hsc hra
    have hnr : isRetryable e = false := by simp [isRetryable, hra, hsc]
    rw [runAttempts, h0]
    simp [hnr]

/-- Witness for C4 at a concrete 404 descriptor. -/
theorem C4_witness :
    (isRetryable { statusCode := some 404, retryAfter := none, cause := 3 } = true ↔
      ({ statusCode := some 404, retryAfter := none, cause := 3 } : ErrDesc).retryAfter ≠ none ∨
        ∃ c, ({ statusCode := some 404, retryAfter := none, cause := 3 } : ErrDesc).statusCode = some c ∧
          500 ≤ c) ∧
    runAttempts
        (fun _ => Outcome.failure { statusCode := some 404, retryAfter := none, cause := 3 })
        0 MAX_RETRIES =
      (DispatchResult.reject { statusCode := some 404, retryAfter := none, cause := 3 }, []) :=
  ⟨C4_retryable_iff_404_immediate.1 _,
    C4_retryable_iff_404_immediate.2 _ _ rfl rfl rfl⟩

/-- C5 counterexample: with no error, status 200 and a retry-after header
of 2 the classifier returns a descriptor rather than null, and with status
503 and the same header the attached hint field holds the raw header value
2, not 2 * 1000 as the claim states. -/
theorem C5_counterexample :
    _buildError none (some { statusCode := 200, headers := some { retryAfter := some 2 } }) =
      Except.ok (some { statusCode := none, retryAfter := some 2, cause := 0 }) ∧
    (some { statusCode := none, retryAfter := some 2, cause := 0 } : Option ErrDesc) ≠ none ∧
    _buildError none (some { statusCode := 503, headers := some { retryAfter := some 2 } }) =
      Except.ok (some { statusCode := some 503, retryAfter := some 2, cause := 0 }) ∧
    ({ statusCode := some 503, retryAfter := some 2, cause := 0 } : ErrDesc) ≠
      { statusCode := some 503, retryAfter := some (2 * 1000), cause := 0 } :=
  ⟨rfl, by decide, rfl, by decide⟩

/-- C5 amended: with no error, status below 400 and no retry-after header
the classifier returns null; with no error and status at least 400 it
synthesizes a descriptor carrying that statusCode; and when a retry-after
header is present it attaches the raw header value (seconds, converted to
milliseconds only later by the dispatcher) to the descriptor, creating one
if none existed. -/
theorem C5_amended_classifier :
    (∀ r : Response, r.statusCode < 400 → hasRetryHeader r = false →
      _buildError none (some r) = Except.ok none) ∧
    (∀ r : Response, 400 ≤ r.statusCode →
      ∃ d, _buildError none (some r) = Except.ok (some d) ∧
        d.statusCode = some r.statusCode) ∧
    (∀ (err : Option ErrDesc) (r : Response) (hs : Headers) (v : Nat),
      r.headers = some hs → hs.retryAfter = some v →
      ∃ d, _buildError err (some r) = Except.ok (some d) ∧ d.retryAfter = some v) := by
  refine ⟨?_, ?_, ?_⟩
  · intro r hlt hnh
    have h4 : ¬ 400 ≤ r.statusCode := by omega
    cases hh : r.headers with
    | none => simp [_buildError, hh, h4]
    | some hs =>
      cases hra : hs.retryAfter with
      | some v => simp [hasRetryHeader, hh, hra] at hnh
      | none => simp [_buildError, hh, hra, h4]
  · intro r h400
    cases hh : r.headers with
    | none =>
      exact ⟨{ statusCode := some r.statusCode, retryAfter := none, cause := 0 },
        by simp [_buildError, hh, h400], rfl⟩
    | some hs =>
      cases hra : hs.retryAfter with
      | none =>
        exact ⟨{ statusCode := some r.statusCode, retryAfter := none, cause := 0 },
          by simp [_buildError, hh, hra, h400], rfl⟩
      | some v =>
        exact ⟨{ statusCode := some r.statusCode, retryAfter := some v, cause := 0 },
          by simp [_buildError, hh, hra, h400], rfl⟩
  · intro err r hs v hh hra
    cases err with
    | none =>
      by_cases h4 : 400 ≤ r.statusCode
      · exact ⟨{ statusCode := some r.statusCode, retryAfter := some v, cause := 0 },
          by simp [_buildError, hh, hra, h4], rfl⟩
      · exact ⟨{ statusCode := none, retryAfter := some v, cause := 0 },
          by simp [_buildError, hh, hra, h4], rfl⟩
    | some e =>
      exact ⟨{ e with retryAfter := some v },
        by simp [_buildError, hh, hra], rfl⟩

/-- Witness for the amended C5 at concrete responses. -/
theorem C5_witness :
    _buildError none (some { statusCode := 200, headers := none }) = Except.ok none ∧
    (∃ d, _buildError none (some { statusCode := 404, headers := none }) =
        Except.ok (some d) ∧ d.statusCode = some 404) ∧
    (∃ d, _buildError (some { statusCode := some 503, retryAfter := none, cause := 9 })
        (some { statusCode := 503, headers := some { retryAfter := some 2 } }) =
        Except.ok (some d) ∧ d.retryAfter = some 2) :=
  ⟨C5_amended_classifier.1 _ (by decide) (by decide),
    C5_amended_classifier.2.1 _ (by decide),
    C5_amended_classifier.2.2 _ _ _ 2 rfl rfl⟩

/-- C6: the slot bound MAX_CONCURRENT is 29; a step preserves the bound on
occupied slots, so from an initially idle queue no reachable state ever has
more than 29 physical calls in flight regardless of how many units are
submitted; the waiting region is only consumed, so a retry is rescheduled
inside the already-admitted slot and never re-enters the admission queue;
steps neither lose nor duplicate units; every step strictly decreases the
termination measure, and any state that still has a waiting or running unit
can step, so every run is finite and ends with every submitted unit settled
(resolved or rejected); retries happen one attempt per step within a single
slot, hence strictly sequentially. -/
theorem C6_queue_bounded_concurrency_and_liveness :
    MAX_CONCURRENT = 29 ∧
    (∀ s s' : QState, QStep s s' →
      s.running.length ≤ MAX_CONCURRENT → s'.running.length ≤ MAX_CONCURRENT) ∧
    (∀ s0 s : QState, Relation.ReflTransGen QStep s0 s → s0.running = [] →
      s.running.length ≤ MAX_CONCURRENT) ∧
    (∀ s s' : QState, QStep s s' → s'.waiting <:+ s.waiting) ∧
    (∀ s s' : QState, QStep s s' → QState.uids s' = QState.uids s) ∧
    (∀ s s' : QState, QStep s s' → QState.qmeasure s' < QState.qmeasure s) ∧
    (∀ s : QState, s.waiting ≠ [] ∨ s.running ≠ [] → ∃ s', QStep s s') :=
  ⟨rfl,
    fun _ _ h hb => h.running_le hb,
    fun _ _ h h0 => qsteps_running_le h h0,
    fun _ _ h => h.waiting_suffix,
    fun _ _ h => h.uids_eq,
    fun _ _ h => h.qmeasure_lt,
    qstep_progress⟩

/-- Concrete unit of work for the C6 witness. -/
def wUnit : WorkUnit := { uid := 0, oracle := fun _ => Outcome.success 1 }

/-- Initial state of the C6 witness scenario: one submitted unit, no
occupied slot. -/
def qs0 : QState := { waiting := [wUnit], running := [], settled := [] }

/-- State of the C6 witness scenario after the admission step. -/
def qs1 : QState := { waiting := [], running := [enterUnit wUnit], settled := [] }

/-- Witness for C6 at the concrete admission step from qs0 to qs1. -/
theorem C6_witness :
    qs1.running.length ≤ MAX_CONCURRENT ∧
    qs1.running.length ≤ MAX_CONCURRENT ∧
    qs1.waiting <:+ qs0.waiting ∧
    QState.uids qs1 = QState.uids qs0 ∧
    QState.qmeasure qs1 < QState.qmeasure qs0 ∧
    (∃ s', QStep qs0 s') := by
  have step : QStep qs0 qs1 := QStep.enter wUnit [] qs0 rfl (by decide)
  exact ⟨C6_queue_bounded_concurrency_and_liveness.2.1 qs0 qs1 step (by decide),
    C6_queue_bounded_concurrency_and_liveness.2.2.1 qs0 qs1
      (Relation.ReflTransGen.single step) rfl,
    C6_queue_bounded_concurrency_and_liveness.2.2.2.1 qs0 qs1 step,
    C6_queue_bounded_concurrency_and_liveness.2.2.2.2.1 qs0 qs1 step,
    C6_queue_bounded_concurrency_and_liveness.2.2.2.2.2.1 qs0 qs1 step,
    C6_queue_bounded_concurrency_and_liveness.2.2.2.2.2.2 qs0 (Or.inl (by simp [qs0]))⟩

/-- C7: evaluation at the failing input. A transport-level failure with no
statusCode and no hint is rejected immediately with zero retries on the
generated dispatch path, as the claim states; but on the attachment path
the classifier is applied to the raw response first, and when the response
is absent (connection error) it throws a TypeError instead of being total,
so the failure is never propagated to the completion there. -/
theorem C7_classifier_not_total_on_absent_response :
    runAttempts
        (fun _ => Outcome.failure { statusCode := none, retryAfter := none, cause := 7 })
        0 MAX_RETRIES =
      (DispatchResult.reject { statusCode := none, retryAfter := none, cause := 7 }, []) ∧
    _buildError (some { statusCode := none, retryAfter := none, cause := 7 }) none =
      Except.error () ∧
    _buildError none none = Except.error () :=
  ⟨rfl, rfl, rfl⟩

/-- C8: the attachment operation posts to the articles attachments endpoint
with the inline form field equal to the literal string true, and on
completion extracts the attachment record at the article_attachment key of
the parsed body, yielding null when the body is empty. -/
theorem C8_attachment_request_shape :
    (∀ opts articleId path,
      (_createAttachmentRequest opts articleId path).formData.inline = "true") ∧
    (∀ opts articleId path,
      (_createAttachmentRequest opts articleId path).url =
        opts.remoteUri ++ attachmentEndpoint articleId) ∧
    attachmentEndpoint 42 = "/articles/42/attachments.json" ∧
    (∀ att : Nat, parseAttachmentResult (some [(ARTICLE_ATTACHMENT, att)]) = some att) ∧
    parseAttachmentResult (α := Nat) none = none := by
  refine ⟨fun _ _ _ => rfl, fun _ _ _ => rfl, by decide, ?_, rfl⟩
  intro att
  simp [parseAttachmentResult, ARTICLE_ATTACHMENT]

/-- C9: the request builder returns base plus endpoint as url, and chooses
auth by strict precedence: bearer token when oauth is configured (even with
a password also present, since the password is never consulted), basic auth
with username and password when a truthy password is configured, and basic
auth with username suffixed by /token plus the API token otherwise. -/
theorem C9_auth_precedence :
    (∀ opts endpoint, (_buildAuthRequest opts endpoint).url = opts.remoteUri ++ endpoint) ∧
    (∀ opts endpoint, opts.oauth = true →
      (_buildAuthRequest opts endpoint).auth = AuthBlock.bearer opts.token) ∧
    (∀ opts endpoint p, opts.oauth = false → opts.password = some p → p ≠ "" →
      (_buildAuthRequest opts endpoint).auth = AuthBlock.basic opts.username p) ∧
    (∀ opts endpoint, opts.oauth = false → jsTruthy opts.password = false →
      (_buildAuthRequest opts endpoint).auth =
        AuthBlock.basic (opts.username ++ "/token") opts.token) := by
  refine ⟨fun _ _ => rfl, ?_, ?_, ?_⟩
  · intro opts endpoint h
    simp [_buildAuthRequest, h]
  · intro opts endpoint p h hp hne
    simp [_buildAuthRequest, h, jsTruthy, hp, hne]
  · intro opts endpoint h hp
    simp [_buildAuthRequest, h, hp]

/-- Witness for C9: oauth with a password present still yields the bearer
token; password-only yields basic auth; neither yields token auth. -/
theorem C9_witness :
    (_buildAuthRequest
        { remoteUri := "https://zd", username := "u", password := some "pw",
          token := "tok", oauth := true } "/a.json").auth = AuthBlock.bearer "tok" ∧
    (_buildAuthRequest
        { remoteUri := "https://zd", username := "u", password := some "pw",
          token := "tok", oauth := false } "/a.json").auth = AuthBlock.basic "u" "pw" ∧
    (_buildAuthRequest
        { remoteUri := "https://zd", username := "u", password := none,
          token := "tok", oauth := false } "/a.json").auth =
      AuthBlock.basic ("u" ++ "/token") "tok" :=
  ⟨C9_auth_precedence.2.1 _ _ rfl,
    C9_auth_precedence.2.2.1 _ _ "pw" rfl rfl (by decide),
    C9_auth_precedence.2.2.2 _ _ rfl rfl⟩

/-- C10: construction succeeds exactly when a client is supplied and that
client owns an articleattachments property; with no client it throws the
documented explicit error, and with a client lacking the property the
assignment of the create operation throws a TypeError, so no partially
built wrapper is produced. -/
theorem C10_construction_requires_articleattachments :
    (∀ c : ClientModel,
      (∃ w, constructWrapper (some c) = Except.ok w) ↔
        "articleattachments" ∈ c.ownProps) ∧
    constructWrapper none = Except.error ConstructErr.noClient ∧
    (∀ c : ClientModel, "articleattachments" ∉ c.ownProps →
      constructWrapper (some c) = Except.error ConstructErr.typeError) := by
  refine ⟨?_, rfl, ?_⟩
  · intro c
    constructor
    · rintro ⟨w, hw⟩
      by_cases hm : "articleattachments" ∈ c.ownProps
      · exact hm
      · simp [constructWrapper, hm] at hw
    · intro hmem
      refine ⟨{ surfaces := ENDPOINTS.filter (fun e => c.ownProps.contains e),
                attachmentsCreate := true }, ?_⟩
      simp [constructWrapper, hmem, ENDPOINTS]
  · intro c hnot
    simp [constructWrapper, hnot]

/-- Witness for C10: a client owning articleattachments constructs, one
without it throws the TypeError. -/
theorem C10_witness :
    ((∃ w, constructWrapper (some { ownProps := ["articles", "articleattachments"] }) =
        Except.ok w) ↔
      "articleattachments" ∈ ["articles", "articleattachments"]) ∧
    constructWrapper (some { ownProps := ["articles"] }) =
      Except.error ConstructErr.typeError :=
  ⟨C10_construction_requires_articleattachments.1 _,
    C10_construction_requires_articleattachments.2.2 _ (by decide)⟩

end Docpub
